import Mathlib

/-!
Verification of the pdfnoodle-mcp server (src/index.ts) against its
natural-language specification.

The development shallowly embeds the TypeScript source:

* Upstream HTTP traffic is an oracle `env : Nat → Except String HttpResponse`
  giving, for the i-th `fetch` issued by one tool invocation, either a thrown
  error (`.error` — a rejected fetch, or a body that fails JSON parsing) or a
  response with a status code, raw body text and parsed JSON body.
* Response bodies are modelled by the record of fields the source reads
  (`UpBody`), assuming the upstream returns objects shaped as declared by the
  source's response interfaces; `renderStatus` is kept as a raw string because
  the source compares it literally against "SUCCESS"/"FAILED".  The `pretty`
  field stands for the JSON.stringify(data, null, 2) rendering used by the
  two template-listing tools.
* `JSON.parse` of caller-supplied JSON-string parameters is an oracle
  `parse : String → Option JVal`; `parse s = none` models a parse that throws
  (the source catches the throw).  Note JSON.parse("") throws in JavaScript,
  so every faithful instance has `parse "" = none`.
* Exceptions are `Except String`; a handler's try/catch is the outer `match`
  that converts `.error` into a flagged tool result.
* Each handler additionally returns the list of upstream calls it issued, in
  order, so that claims about "zero upstream calls" / "never queries the
  status endpoint" are stated directly.
* `setTimeout` waits are recorded in the poll result as the list of delays
  (in milliseconds, as exact rationals) waited before each status query, in
  order.  The JavaScript doubles reachable from the default initial delay
  (2000, 3000, 4500, 6750, 10000, ...) are all exactly representable, so the
  rational model is exact for the claims considered here.
-/

set_option linter.unusedVariables false

/-- A JSON value, as produced by a successful JSON.parse of a caller-supplied
JSON-string parameter.  The handlers only store these values into the upstream
payload, so no operations on `JVal` are needed. -/
inductive JVal where
  | null : JVal
  | bool : Bool → JVal
  | num : Rat → JVal
  | str : String → JVal
  | arr : List JVal → JVal
  | obj : List (String × JVal) → JVal

/-- The optional `metadata` object of success/status responses
(interfaces `PdfSuccessResponse` / `PdfStatusResponse`). -/
structure UpMeta where
  executionTime : String
  fileSize : String

/-- A parsed upstream response body, modelled by the union of the fields the
source reads (`PdfSuccessResponse`, `PdfQueuedResponse`, `PdfStatusResponse`),
plus `pretty`, which stands for the `JSON.stringify(data, null, 2)` rendering
of the body used by `list_templates` / `get_template_variables`.
`renderStatus` is a raw string: the source compares it literally. -/
structure UpBody where
  pretty : String
  requestId : String
  statusUrl : String
  message : String
  renderStatus : String
  signedUrl : String
  metadata : Option UpMeta

/-- An upstream HTTP response: status code, raw body text (used for the error
message on non-2xx statuses), and the parsed JSON body. -/
structure HttpResponse where
  status : Nat
  text : String
  body : UpBody

inductive HttpMethod where
  | GET : HttpMethod
  | POST : HttpMethod

/-- The body sent by html_to_pdf (`const payload: Record<string, unknown>`):
`html` always present; `pdfParams` / `metadata` present only when the
corresponding JSON-string argument was truthy and parsed; `convertToImage` /
`hasCover` present only when the boolean argument was not undefined. -/
structure HtmlPayload where
  html : String
  pdfParams : Option JVal
  metadata : Option JVal
  convertToImage : Option Bool
  hasCover : Option Bool

/-- A request body sent to the upstream API. -/
inductive ReqBody where
  | html : HtmlPayload → ReqBody
  | gen : (templateId : String) → (data : JVal) → ReqBody

/-- One upstream call issued via `callApi`: the bearer credential, the
endpoint appended to the API base, the method, and the optional JSON body. -/
structure ApiCall where
  apiKey : String
  endpoint : String
  method : HttpMethod
  body : Option ReqBody

/-- A tool result.  In the source every result is
`{content: [{type: "text", text}], isError?}`, i.e. a single text item with an
optional error flag, so it is modelled as the text plus the flag. -/
structure ToolResult where
  text : String
  isError : Bool

/-- The error message thrown by `callApi` on a non-ok, non-202 status:
`PDFNoodle API Error (${response.status}): ${errorText}`. -/
def apiErrMsg (status : Nat) (errorText : String) : String :=
  "PDFNoodle API Error (" ++ toString status ++ "): " ++ errorText

/-- Model of `callApi` (src/index.ts lines 39-65) applied to the oracle's
answer for one fetch.  A rejected fetch (or a body that fails JSON parsing)
is `.error`; otherwise the source throws iff the status is neither ok
(200-299) nor 202, and returns the status together with the parsed body. -/
def callApi (resp : Except String HttpResponse) : Except String (Nat × UpBody) :=
  match resp with
  | .error e => .error e
  | .ok r =>
    if (¬ (200 ≤ r.status ∧ r.status < 300)) ∧ r.status ≠ 202 then
      .error (apiErrMsg r.status r.text)
    else
      .ok (r.status, r.body)

/-- The status query issued on each poll attempt:
`GET pdf/status/${requestId}`. -/
def statusCall (apiKey requestId : String) : ApiCall :=
  ⟨apiKey, "pdf/status/" ++ requestId, .GET, none⟩

/-- Timeout error of the poll loop (src/index.ts line 97). -/
def timeoutMsg (maxAttempts : Nat) (requestId : String) : String :=
  "PDF generation timed out after " ++ toString maxAttempts ++
    " attempts for request " ++ requestId

/-- Render-failure error of the poll loop (src/index.ts line 90). -/
def failedMsg (requestId : String) : String :=
  "PDF generation failed for request " ++ requestId

/-- The back-off update of src/index.ts line 94:
`delay = Math.min(delay * 1.5, 10000)`. -/
def stepDelay (delay : Rat) : Rat :=
  min (delay * (3 / 2)) 10000

/-- Result of a run of `pollForPdfCompletion`: the returned status body or the
thrown error, the status queries issued (in order), and the delays waited (in
order; the source waits each delay immediately before the matching query). -/
structure PollResult where
  outcome : Except String UpBody
  calls : List ApiCall
  waits : List Rat

/-- One step of the poll loop of `pollForPdfCompletion`
(src/index.ts lines 76-95), recursing on the number of attempts left out of
`maxAttempts`.  Each iteration waits `delay`, issues the status query (the
oracle is shifted by one on recursion, so `env 0` is always the answer to the
next query), returns on "SUCCESS", throws on "FAILED", and otherwise retries
with the stepped delay.  When no attempts remain it throws the timeout error
(line 97). -/
def pollAux (env : Nat → Except String HttpResponse) (apiKey requestId : String)
    (maxAttempts : Nat) (delay : Rat) : Nat → PollResult
  | 0 => ⟨.error (timeoutMsg maxAttempts requestId), [], []⟩
  | remaining + 1 =>
    match callApi (env 0) with
    | .error e => ⟨.error e, [statusCall apiKey requestId], [delay]⟩
    | .ok (_, data) =>
      if data.renderStatus = "SUCCESS" then
        ⟨.ok data, [statusCall apiKey requestId], [delay]⟩
      else if data.renderStatus = "FAILED" then
        ⟨.error (failedMsg requestId), [statusCall apiKey requestId], [delay]⟩
      else
        let rest := pollAux (fun i => env (i + 1)) apiKey requestId maxAttempts
          (stepDelay delay) remaining
        ⟨rest.outcome, statusCall apiKey requestId :: rest.calls, delay :: rest.waits⟩

/-- Model of `pollForPdfCompletion` (src/index.ts lines 68-98).  The source's
defaults are `maxAttempts = 20`, `initialDelayMs = 2000`; call sites that rely
on the defaults pass `20` and `2000` explicitly here. -/
def pollForPdfCompletion (env : Nat → Except String HttpResponse)
    (apiKey requestId : String) (maxAttempts : Nat) (initialDelayMs : Rat) :
    PollResult :=
  pollAux env apiKey requestId maxAttempts initialDelayMs maxAttempts

/-- The delay schedule asserted by the spec: starts at 2000 ms, each
subsequent delay is min(previous * 1.5, 10000 ms). -/
def delaySeq : Nat → Rat
  | 0 => 2000
  | n + 1 => min (delaySeq n * (3 / 2)) 10000

/-- The `x || "N/A"` pattern used on the optional metadata fields: undefined
(absent metadata) and the empty string are both falsy in JavaScript and yield
"N/A". -/
def orNA (o : Option String) : String :=
  match o with
  | none => "N/A"
  | some s => if s = "" then "N/A" else s

/-- Model of the `list_templates` handler (src/index.ts lines 108-132).  The
handler destructures only `apiKey` from its arguments; the declared optional
`limit` input is never read.  The success text is
`JSON.stringify(data, null, 2)`, modelled by the body's `pretty` field. -/
def list_templates (env : Nat → Except String HttpResponse) (apiKey : String)
    (limit : Option Nat) : ToolResult × List ApiCall :=
  match callApi (env 0) with
  | .ok (_, data) => (⟨data.pretty, false⟩, [⟨apiKey, "integration/templates", .GET, none⟩])
  | .error msg =>
    (⟨"Error fetching templates: " ++ msg, true⟩, [⟨apiKey, "integration/templates", .GET, none⟩])

/-- Model of the `get_template_variables` handler (src/index.ts lines 135-159). -/
def get_template_variables (env : Nat → Except String HttpResponse)
    (apiKey templateId : String) : ToolResult × List ApiCall :=
  match callApi (env 0) with
  | .ok (_, data) =>
    (⟨data.pretty, false⟩,
      [⟨apiKey, "integration/templates/" ++ templateId ++ "/variables", .GET, none⟩])
  | .error msg =>
    (⟨"Error fetching template variables: " ++ msg, true⟩,
      [⟨apiKey, "integration/templates/" ++ templateId ++ "/variables", .GET, none⟩])

/-- Model of the `check_pdf_status` handler (src/index.ts lines 162-208):
one status query, then a three-way branch on `renderStatus`. -/
def check_pdf_status (env : Nat → Except String HttpResponse)
    (apiKey requestId : String) : ToolResult × List ApiCall :=
  match callApi (env 0) with
  | .error msg => (⟨"Error checking PDF status: " ++ msg, true⟩, [statusCall apiKey requestId])
  | .ok (_, data) =>
    if data.renderStatus = "SUCCESS" then
      (⟨"PDF Ready! Download URL: " ++ data.signedUrl ++
          "\nExecution time: " ++ orNA (data.metadata.map UpMeta.executionTime) ++
          "\nFile size: " ++ orNA (data.metadata.map UpMeta.fileSize), false⟩,
        [statusCall apiKey requestId])
    else if data.renderStatus = "ONGOING" then
      (⟨"PDF generation is still in progress. Request ID: " ++ requestId ++
          ". Please check again in a few seconds.", false⟩,
        [statusCall apiKey requestId])
    else
      (⟨"PDF generation failed. Request ID: " ++ requestId, true⟩,
        [statusCall apiKey requestId])

/-- `convertToImage ? "PNG" : "PDF"`: only a present `true` is truthy. -/
def fileTypeStr (convertToImage : Option Bool) : String :=
  match convertToImage with
  | some true => "PNG"
  | _ => "PDF"

/-- Payload construction of the `html_to_pdf` handler (src/index.ts lines
228-252).  `if (pdfParams)` / `if (metadata)` use JavaScript string
truthiness: undefined and "" are both falsy and skip the JSON.parse entirely;
a truthy string that fails to parse throws the descriptive error (caught by
the handler's catch).  `convertToImage` / `hasCover` are added iff not
undefined.
`parseOptJsonParam` models the repeated block
`if (param) { try { payload.param = JSON.parse(param) } catch { throw
"Invalid JSON provided for ... parameter" } }` for one named parameter. -/
def parseOptJsonParam (parse : String → Option JVal) (which : String) :
    Option String → Except String (Option JVal)
  | none => .ok none
  | some s =>
    if s = "" then .ok none
    else
      match parse s with
      | some v => .ok (some v)
      | none => .error ("Invalid JSON provided for \x27" ++ which ++ "\x27 parameter")

def buildHtmlPayload (parse : String → Option JVal) (html : String)
    (pdfParams : Option String) (metadata : Option String)
    (convertToImage : Option Bool) (hasCover : Option Bool) :
    Except String HtmlPayload :=
  match parseOptJsonParam parse "pdfParams" pdfParams with
  | .error e => .error e
  | .ok pp =>
    match parseOptJsonParam parse "metadata" metadata with
    | .error e => .error e
    | .ok md => .ok ⟨html, pp, md, convertToImage, hasCover⟩

/-- Model of the `html_to_pdf` handler (src/index.ts lines 226-312).  The
outer `match`es on thrown errors model the handler's try/catch; the source's
bare call `pollForPdfCompletion(apiKey, queuedResult.requestId)` uses the
defaults, passed here as `20` and `2000`.  The poll's oracle is the tail of
`env`: its queries are this invocation's calls 1, 2, ... -/
def html_to_pdf (parse : String → Option JVal)
    (env : Nat → Except String HttpResponse) (apiKey html : String)
    (pdfParams : Option String) (convertToImage : Option Bool)
    (metadata : Option String) (hasCover : Option Bool)
    (waitForCompletion : Bool) : ToolResult × List ApiCall :=
  match buildHtmlPayload parse html pdfParams metadata convertToImage hasCover with
  | .error msg => (⟨"Error converting HTML to PDF: " ++ msg, true⟩, [])
  | .ok payload =>
    match callApi (env 0) with
    | .error msg =>
      (⟨"Error converting HTML to PDF: " ++ msg, true⟩,
        [⟨apiKey, "html-to-pdf/sync", .POST, some (.html payload)⟩])
    | .ok (status, result) =>
      if status = 200 then
        (⟨fileTypeStr convertToImage ++ " Generated Successfully!\nDownload URL: " ++
            result.signedUrl ++
            "\nExecution time: " ++ orNA (result.metadata.map UpMeta.executionTime) ++
            "\nFile size: " ++ orNA (result.metadata.map UpMeta.fileSize), false⟩,
          [⟨apiKey, "html-to-pdf/sync", .POST, some (.html payload)⟩])
      else if status = 202 then
        if !waitForCompletion then
          (⟨"PDF generation queued (taking longer than 30 seconds).\nRequest ID: " ++
              result.requestId ++
              "\nUse the check_pdf_status tool to monitor progress.", false⟩,
            [⟨apiKey, "html-to-pdf/sync", .POST, some (.html payload)⟩])
        else
          let pr := pollForPdfCompletion (fun i => env (i + 1)) apiKey result.requestId 20 2000
          match pr.outcome with
          | .ok finalResult =>
            (⟨fileTypeStr convertToImage ++ " Generated Successfully (async)!\nDownload URL: " ++
                finalResult.signedUrl ++
                "\nExecution time: " ++ orNA (finalResult.metadata.map UpMeta.executionTime) ++
                "\nFile size: " ++ orNA (finalResult.metadata.map UpMeta.fileSize), false⟩,
              ⟨apiKey, "html-to-pdf/sync", .POST, some (.html payload)⟩ :: pr.calls)
          | .error msg =>
            (⟨"Error converting HTML to PDF: " ++ msg, true⟩,
              ⟨apiKey, "html-to-pdf/sync", .POST, some (.html payload)⟩ :: pr.calls)
      else
        (⟨"Error converting HTML to PDF: Unexpected response status: " ++ toString status, true⟩,
          [⟨apiKey, "html-to-pdf/sync", .POST, some (.html payload)⟩])

/-- Model of the `generate_pdf` handler (src/index.ts lines 328-398).  The
required `data` argument is JSON.parsed unconditionally (no truthiness
guard), so even the empty string reaches the parse and throws. -/
def generate_pdf (parse : String → Option JVal)
    (env : Nat → Except String HttpResponse) (apiKey templateId data : String)
    (waitForCompletion : Bool) : ToolResult × List ApiCall :=
  match parse data with
  | none =>
    (⟨"Error generating PDF: Invalid JSON provided for \x27data\x27 parameter", true⟩, [])
  | some parsedData =>
    match callApi (env 0) with
    | .error msg =>
      (⟨"Error generating PDF: " ++ msg, true⟩,
        [⟨apiKey, "pdf/sync", .POST, some (.gen templateId parsedData)⟩])
    | .ok (status, result) =>
      if status = 200 then
        (⟨"PDF Generated Successfully!\nDownload URL: " ++ result.signedUrl ++
            "\nExecution time: " ++ orNA (result.metadata.map UpMeta.executionTime) ++
            "\nFile size: " ++ orNA (result.metadata.map UpMeta.fileSize), false⟩,
          [⟨apiKey, "pdf/sync", .POST, some (.gen templateId parsedData)⟩])
      else if status = 202 then
        if !waitForCompletion then
          (⟨"PDF generation queued (taking longer than 30 seconds).\nRequest ID: " ++
              result.requestId ++
              "\nUse the check_pdf_status tool to monitor progress.", false⟩,
            [⟨apiKey, "pdf/sync", .POST, some (.gen templateId parsedData)⟩])
        else
          let pr := pollForPdfCompletion (fun i => env (i + 1)) apiKey result.requestId 20 2000
          match pr.outcome with
          | .ok finalResult =>
            (⟨"PDF Generated Successfully (async)!\nDownload URL: " ++ finalResult.signedUrl ++
                "\nExecution time: " ++ orNA (finalResult.metadata.map UpMeta.executionTime) ++
                "\nFile size: " ++ orNA (finalResult.metadata.map UpMeta.fileSize), false⟩,
              ⟨apiKey, "pdf/sync", .POST, some (.gen templateId parsedData)⟩ :: pr.calls)
          | .error msg =>
            (⟨"Error generating PDF: " ++ msg, true⟩,
              ⟨apiKey, "pdf/sync", .POST, some (.gen templateId parsedData)⟩ :: pr.calls)
      else
        (⟨"Error generating PDF: Unexpected response status: " ++ toString status, true⟩,
          [⟨apiKey, "pdf/sync", .POST, some (.gen templateId parsedData)⟩])

/-- A `StreamableHTTPServerTransport` as far as the routing code observes it:
its `sessionId` (undefined until the initialization handshake assigns one) and
an opaque handle distinguishing transport instances. -/
structure TransportObj where
  sessionId : Option String
  handle : Nat

/-- The process-wide `transports` record of src/index.ts line 410: a
JavaScript object keyed by session id, modelled as an association list whose
keys are kept unique. -/
abbrev Registry := List (String × TransportObj)

/-- `transports[sessionId]` lookup. -/
def lookupT : Registry → String → Option TransportObj
  | [], _ => none
  | (a, t) :: tl, id => if a = id then some t else lookupT tl id

/-- Removal of the binding for `id` (the `delete transports[...]` statement). -/
def eraseT : Registry → String → Registry
  | [], _ => []
  | (a, t) :: tl, id => if a = id then eraseT tl id else (a, t) :: eraseT tl id

/-- `transports[id] = transport` assignment: JavaScript object assignment
overwrites any existing binding for the key. -/
def setT (transports : Registry) (id : String) (t : TransportObj) : Registry :=
  (id, t) :: eraseT transports id

/-- The registry invariant: each session identifier has at most one binding. -/
def KeysNodup (transports : Registry) : Prop :=
  (transports.map Prod.fst).Nodup

/-- The `transport.onclose` handler (src/index.ts lines 432-436): if the
transport has a session id, delete that id's binding from the registry. -/
def onCloseHandler (transports : Registry) (t : TransportObj) : Registry :=
  match t.sessionId with
  | some id => eraseT transports id
  | none => transports

/-- The property names a plain JavaScript object literal inherits from
Object.prototype.  A read `transports[id]` that misses every own property
still yields one of these members — a function or an object, hence truthy —
whenever `id` names one of them. -/
def protoProps : List String :=
  ["constructor", "hasOwnProperty", "isPrototypeOf", "propertyIsEnumerable",
    "toLocaleString", "toString", "valueOf", "__proto__",
    "__defineGetter__", "__defineSetter__", "__lookupGetter__",
    "__lookupSetter__"]

/-- Result of the JavaScript property read `transports[sessionId]` on the
plain object of src/index.ts line 410: an own property (a registered
transport), an inherited truthy Object.prototype member (not a transport),
or undefined. -/
inductive PropRead where
  | own : TransportObj → PropRead
  | proto : PropRead
  | absent : PropRead

/-- The plain-object read `transports[id]`: own properties first, then the
Object.prototype chain.  The registry's own keys are the randomUUID session
ids registered by `onsessioninitialized`, so an inherited-member hit can only
come from a client-supplied, never-registered id. -/
def objGet (transports : Registry) (id : String) : PropRead :=
  match lookupT transports id with
  | some t => .own t
  | none => if id ∈ protoProps then .proto else .absent

/-- Outcome of one inbound POST to /mcp: the request is handed to an existing
transport; handed to a freshly created one (whose session id the
`onsessioninitialized` callback registers); answered with a JSON-RPC error
object; or — when the reuse branch is taken with an inherited
Object.prototype member instead of a transport — `transport.handleRequest`
is not a function, the handler throws a TypeError, and no JSON-RPC response
is produced (`crashed`, carrying the offending id). -/
inductive PostOutcome where
  | routed : TransportObj → PostOutcome
  | created : String → PostOutcome
  | rejected : Int → String → PostOutcome
  | crashed : String → PostOutcome

/-- Model of the `app.post("/mcp")` routing (src/index.ts lines 416-450).
`sessionId` is the `mcp-session-id` header (`undefined` when absent, possibly
`""` when sent empty); `isInit` is `isInitializeRequest(req.body)`; `freshId`
is the `randomUUID()` the new transport's generator would produce and
`freshHandle` identifies the new transport instance.  The JavaScript guards
are `sessionId && transports[sessionId]` — string truthiness (`""` is falsy)
combined with the plain-object read `objGet`, which consults Object.prototype
after the own properties — and `!sessionId && isInitializeRequest(req.body)`.
When the read hits an inherited prototype member, the truthy non-transport
value takes the reuse branch and `await transport.handleRequest(...)` throws
a TypeError (`.crashed`).  On the initialization path the source registers
the transport from `onsessioninitialized` once the handshake completes; the
model collapses the successful handshake into the returned registry. -/
def handlePost (transports : Registry) (sessionId : Option String)
    (isInit : Bool) (freshId : String) (freshHandle : Nat) :
    PostOutcome × Registry :=
  match sessionId with
  | some s =>
    if s = "" then
      if isInit then
        (.created freshId, setT transports freshId ⟨some freshId, freshHandle⟩)
      else
        (.rejected (-32000) "Invalid session", transports)
    else
      match objGet transports s with
      | .own t => (.routed t, transports)
      | .proto => (.crashed s, transports)
      | .absent => (.rejected (-32000) "Invalid session", transports)
  | none =>
    if isInit then
      (.created freshId, setT transports freshId ⟨some freshId, freshHandle⟩)
    else
      (.rejected (-32000) "Invalid session", transports)

lemma delaySeq_eq_iterate : ∀ n, delaySeq n = stepDelay^[n] (2000 : Rat) := by
  intro n
  induction n with
  | zero => rfl
  | succ n ih =>
    rw [Function.iterate_succ_apply']
    simp [delaySeq, stepDelay, ih]

lemma range_map_iterate_succ {α : Type} (f : α → α) (d : α) (n : Nat) :
    (List.range (n + 1)).map (fun i => f^[i] d) =
      d :: (List.range n).map (fun i => f^[i] (f d)) := by
  rw [List.range_succ_eq_map, List.map_cons, List.map_map]
  have h : ((fun i => f^[i] d) ∘ Nat.succ) = fun i => f^[i] (f d) :=
    funext fun i => Function.iterate_succ_apply f i d
  rw [h]
  rfl

lemma pollAux_ongoing_then_success (apiKey requestId : String) (maxAttempts : Nat) :
    ∀ (k remaining : Nat) (d : Rat) (env : Nat → Except String HttpResponse)
      (stats : Nat → Nat) (bodies : Nat → UpBody),
      k < remaining →
      (∀ i, i ≤ k → callApi (env i) = .ok (stats i, bodies i)) →
      (∀ i, i < k → (bodies i).renderStatus = "ONGOING") →
      (bodies k).renderStatus = "SUCCESS" →
      pollAux env apiKey requestId maxAttempts d remaining =
        ⟨.ok (bodies k), List.replicate (k + 1) (statusCall apiKey requestId),
          (List.range (k + 1)).map (fun n => stepDelay^[n] d)⟩ := by
  intro k
  induction k with
  | zero =>
    intro remaining d env stats bodies hk henv hong hsucc
    match remaining, hk with
    | r + 1, _ =>
      simp only [pollAux]
      rw [henv 0 (Nat.le_refl 0)]
      simp [hsucc]
  | succ k ih =>
    intro remaining d env stats bodies hk henv hong hsucc
    match remaining, hk with
    | r + 1, hk =>
      simp only [pollAux]
      rw [henv 0 (by omega)]
      have h0 : (bodies 0).renderStatus = "ONGOING" := hong 0 (by omega)
      simp only [h0]
      rw [if_neg (by decide), if_neg (by decide)]
      rw [ih r (stepDelay d) (fun i => env (i + 1)) (fun i => stats (i + 1))
        (fun i => bodies (i + 1)) (by omega)
        (fun i hi => henv (i + 1) (by omega))
        (fun i hi => hong (i + 1) (by omega)) hsucc]
      simp only [range_map_iterate_succ, List.replicate_succ]

lemma pollAux_all_ongoing (apiKey requestId : String) (maxAttempts : Nat) :
    ∀ (remaining : Nat) (d : Rat) (env : Nat → Except String HttpResponse)
      (stats : Nat → Nat) (bodies : Nat → UpBody),
      (∀ i, i < remaining → callApi (env i) = .ok (stats i, bodies i)) →
      (∀ i, i < remaining → (bodies i).renderStatus = "ONGOING") →
      pollAux env apiKey requestId maxAttempts d remaining =
        ⟨.error (timeoutMsg maxAttempts requestId),
          List.replicate remaining (statusCall apiKey requestId),
          (List.range remaining).map (fun n => stepDelay^[n] d)⟩ := by
  intro remaining
  induction remaining with
  | zero => intro d env stats bodies henv hong; simp [pollAux]
  | succ r ih =>
    intro d env stats bodies henv hong
    simp only [pollAux]
    rw [henv 0 (by omega)]
    have h0 : (bodies 0).renderStatus = "ONGOING" := hong 0 (by omega)
    simp only [h0]
    rw [if_neg (by decide), if_neg (by decide)]
    rw [ih (stepDelay d) (fun i => env (i + 1)) (fun i => stats (i + 1))
      (fun i => bodies (i + 1))
      (fun i hi => henv (i + 1) (by omega))
      (fun i hi => hong (i + 1) (by omega))]
    simp only [range_map_iterate_succ, List.replicate_succ]

lemma pollAux_ongoing_then_failed (apiKey requestId : String) (maxAttempts : Nat) :
    ∀ (k remaining : Nat) (d : Rat) (env : Nat → Except String HttpResponse)
      (stats : Nat → Nat) (bodies : Nat → UpBody),
      k < remaining →
      (∀ i, i ≤ k → callApi (env i) = .ok (stats i, bodies i)) →
      (∀ i, i < k → (bodies i).renderStatus = "ONGOING") →
      (bodies k).renderStatus = "FAILED" →
      pollAux env apiKey requestId maxAttempts d remaining =
        ⟨.error (failedMsg requestId),
          List.replicate (k + 1) (statusCall apiKey requestId),
          (List.range (k + 1)).map (fun n => stepDelay^[n] d)⟩ := by
  intro k
  induction k with
  | zero =>
    intro remaining d env stats bodies hk henv hong hfail
    match remaining, hk with
    | r + 1, _ =>
      simp only [pollAux]
      rw [henv 0 (Nat.le_refl 0)]
      simp only [hfail]
      rw [if_neg (by decide)]
      simp
  | succ k ih =>
    intro remaining d env stats bodies hk henv hong hfail
    match remaining, hk with
    | r + 1, hk =>
      simp only [pollAux]
      rw [henv 0 (by omega)]
      have h0 : (bodies 0).renderStatus = "ONGOING" := hong 0 (by omega)
      simp only [h0]
      rw [if_neg (by decide), if_neg (by decide)]
      rw [ih r (stepDelay d) (fun i => env (i + 1)) (fun i => stats (i + 1))
        (fun i => bodies (i + 1)) (by omega)
        (fun i hi => henv (i + 1) (by omega))
        (fun i hi => hong (i + 1) (by omega)) hfail]
      simp only [range_map_iterate_succ, List.replicate_succ]

lemma iterate_map_eq_delaySeq_map (n : Nat) :
    (List.range n).map (fun i => stepDelay^[i] (2000 : Rat)) =
      (List.range n).map delaySeq := by
  have hfun : (fun i => stepDelay^[i] (2000 : Rat)) = delaySeq :=
    funext fun i => (delaySeq_eq_iterate i).symm
  rw [hfun]

/-- C1: for every job-status sequence of exactly k ONGOING responses (k < 20)
followed by a SUCCESS response, `pollForPdfCompletion` with the source's
defaults (maxAttempts = 20, initialDelayMs = 2000) returns the SUCCESS status
body after issuing exactly k + 1 status queries, waiting before each query;
the waited delays are exactly the schedule that starts at 2000 ms with each
subsequent delay min(previous * 1.5, 10000 ms) (`delaySeq`). -/
theorem C1_poll_backoff_success (env : Nat → Except String HttpResponse)
    (apiKey requestId : String) (k : Nat) (stats : Nat → Nat)
    (bodies : Nat → UpBody) (hk : k < 20)
    (henv : ∀ i, i ≤ k → callApi (env i) = .ok (stats i, bodies i))
    (hong : ∀ i, i < k → (bodies i).renderStatus = "ONGOING")
    (hsucc : (bodies k).renderStatus = "SUCCESS") :
    (pollForPdfCompletion env apiKey requestId 20 2000).outcome = .ok (bodies k) ∧
    (pollForPdfCompletion env apiKey requestId 20 2000).calls =
      List.replicate (k + 1) (statusCall apiKey requestId) ∧
    (pollForPdfCompletion env apiKey requestId 20 2000).calls.length = k + 1 ∧
    (pollForPdfCompletion env apiKey requestId 20 2000).waits =
      (List.range (k + 1)).map delaySeq := by
  have h := pollAux_ongoing_then_success apiKey requestId 20 k 20 2000 env stats
    bodies hk henv hong hsucc
  rw [pollForPdfCompletion, h]
  refine ⟨rfl, rfl, by simp, ?_⟩
  exact iterate_map_eq_delaySeq_map (k + 1)

/-- An always-ONGOING status body used by concrete witnesses. -/
def ongoingBody : UpBody := ⟨"", "r1", "", "", "ONGOING", "", none⟩

/-- A SUCCESS status body used by concrete witnesses. -/
def successBody : UpBody :=
  ⟨"", "r1", "", "", "SUCCESS", "https://x/y.pdf", some ⟨"1.2s", "10KB"⟩⟩

/-- A FAILED status body used by concrete witnesses. -/
def failedBody : UpBody := ⟨"", "r1", "", "", "FAILED", "", none⟩

def bodiesC1 : Nat → UpBody := fun i => if i < 2 then ongoingBody else successBody

def envC1 : Nat → Except String HttpResponse := fun i => .ok ⟨200, "", bodiesC1 i⟩

theorem C1_poll_backoff_success_witness :
    (pollForPdfCompletion envC1 "key" "r1" 20 2000).outcome = .ok (bodiesC1 2) ∧
    (pollForPdfCompletion envC1 "key" "r1" 20 2000).calls =
      List.replicate 3 (statusCall "key" "r1") ∧
    (pollForPdfCompletion envC1 "key" "r1" 20 2000).calls.length = 3 ∧
    (pollForPdfCompletion envC1 "key" "r1" 20 2000).waits =
      (List.range 3).map delaySeq :=
  C1_poll_backoff_success envC1 "key" "r1" 2 (fun _ => 200) bodiesC1 (by decide)
    (fun i hi => by interval_cases i <;> rfl)
    (fun i hi => by interval_cases i <;> rfl)
    rfl

/-- C2: for every job-status sequence of 20 consecutive ONGOING responses,
`pollForPdfCompletion` with the source's default maxAttempts = 20 throws the
timed-out error after exactly 20 status queries (and never a 21st: exactly
the queries at oracle indices 0..19 are issued); the error message carries
the attempt count ("20") and the request id as visible components. -/
theorem C2_poll_timeout (env : Nat → Except String HttpResponse)
    (apiKey requestId : String) (stats : Nat → Nat) (bodies : Nat → UpBody)
    (henv : ∀ i, i < 20 → callApi (env i) = .ok (stats i, bodies i))
    (hong : ∀ i, i < 20 → (bodies i).renderStatus = "ONGOING") :
    (pollForPdfCompletion env apiKey requestId 20 2000).outcome =
      .error (timeoutMsg 20 requestId) ∧
    timeoutMsg 20 requestId =
      "PDF generation timed out after " ++ "20" ++ " attempts for request " ++ requestId ∧
    (pollForPdfCompletion env apiKey requestId 20 2000).calls =
      List.replicate 20 (statusCall apiKey requestId) ∧
    (pollForPdfCompletion env apiKey requestId 20 2000).calls.length = 20 := by
  have h := pollAux_all_ongoing apiKey requestId 20 20 2000 env stats bodies henv hong
  rw [pollForPdfCompletion, h]
  exact ⟨rfl, rfl, rfl, by simp⟩

def envOngoing : Nat → Except String HttpResponse := fun _ => .ok ⟨200, "", ongoingBody⟩

theorem C2_poll_timeout_witness :
    (pollForPdfCompletion envOngoing "key" "r1" 20 2000).outcome =
      .error (timeoutMsg 20 "r1") ∧
    timeoutMsg 20 "r1" =
      "PDF generation timed out after " ++ "20" ++ " attempts for request " ++ "r1" ∧
    (pollForPdfCompletion envOngoing "key" "r1" 20 2000).calls =
      List.replicate 20 (statusCall "key" "r1") ∧
    (pollForPdfCompletion envOngoing "key" "r1" 20 2000).calls.length = 20 :=
  C2_poll_timeout envOngoing "key" "r1" (fun _ => 200) (fun _ => ongoingBody)
    (fun i hi => rfl) (fun i hi => rfl)

/-- C3: for every job-status sequence whose first non-ONGOING response is
FAILED (at query index k), `pollForPdfCompletion` throws the render-failed
error at that response — for every attempt budget and initial delay — issuing
exactly k + 1 status queries no matter how many attempts remain; the error
message carries the request id as a visible component. -/
theorem C3_poll_failed_immediately (env : Nat → Except String HttpResponse)
    (apiKey requestId : String) (maxAttempts : Nat) (d0 : Rat) (k : Nat)
    (stats : Nat → Nat) (bodies : Nat → UpBody) (hk : k < maxAttempts)
    (henv : ∀ i, i ≤ k → callApi (env i) = .ok (stats i, bodies i))
    (hong : ∀ i, i < k → (bodies i).renderStatus = "ONGOING")
    (hfail : (bodies k).renderStatus = "FAILED") :
    (pollForPdfCompletion env apiKey requestId maxAttempts d0).outcome =
      .error ("PDF generation failed for request " ++ requestId) ∧
    (pollForPdfCompletion env apiKey requestId maxAttempts d0).calls =
      List.replicate (k + 1) (statusCall apiKey requestId) ∧
    (pollForPdfCompletion env apiKey requestId maxAttempts d0).calls.length = k + 1 := by
  have h := pollAux_ongoing_then_failed apiKey requestId maxAttempts k maxAttempts
    d0 env stats bodies hk henv hong hfail
  rw [pollForPdfCompletion, h]
  exact ⟨rfl, rfl, by simp⟩

def bodiesC3 : Nat → UpBody := fun i => if i < 1 then ongoingBody else failedBody

def envC3 : Nat → Except String HttpResponse := fun i => .ok ⟨200, "", bodiesC3 i⟩

theorem C3_poll_failed_immediately_witness :
    (pollForPdfCompletion envC3 "key" "r1" 20 2000).outcome =
      .error ("PDF generation failed for request " ++ "r1") ∧
    (pollForPdfCompletion envC3 "key" "r1" 20 2000).calls =
      List.replicate 2 (statusCall "key" "r1") ∧
    (pollForPdfCompletion envC3 "key" "r1" 20 2000).calls.length = 2 :=
  C3_poll_failed_immediately envC3 "key" "r1" 20 2000 1 (fun _ => 200) bodiesC3
    (by decide)
    (fun i hi => by interval_cases i <;> rfl)
    (fun i hi => by interval_cases i; rfl)
    rfl

lemma lookupT_eraseT (r : Registry) (id : String) :
    lookupT (eraseT r id) id = none := by
  induction r with
  | nil => rfl
  | cons p tl ih =>
    obtain ⟨a, t⟩ := p
    by_cases h : a = id
    · simpa [eraseT, h] using ih
    · simpa [eraseT, lookupT, h] using ih

lemma mem_keys_eraseT (r : Registry) (id s : String)
    (h : s ∈ (eraseT r id).map Prod.fst) : s ∈ r.map Prod.fst := by
  induction r with
  | nil => simp [eraseT] at h
  | cons p tl ih =>
    obtain ⟨a, t⟩ := p
    by_cases ha : a = id
    · simp only [eraseT, if_pos ha] at h
      simp [ih h]
    · simp only [eraseT, if_neg ha, List.map_cons, List.mem_cons] at h
      rcases h with h | h
      · simp [h]
      · simp [ih h]

lemma keysNodup_eraseT (r : Registry) (id : String) (h : KeysNodup r) :
    KeysNodup (eraseT r id) := by
  induction r with
  | nil => exact h
  | cons p tl ih =>
    obtain ⟨a, t⟩ := p
    rw [KeysNodup, List.map_cons, List.nodup_cons] at h
    by_cases ha : a = id
    · simpa [KeysNodup, eraseT, ha] using ih h.2
    · rw [KeysNodup, eraseT, if_neg ha, List.map_cons, List.nodup_cons]
      exact ⟨fun hm => h.1 (mem_keys_eraseT tl id a hm), ih h.2⟩

lemma not_mem_keys_eraseT (r : Registry) (id : String) :
    id ∉ (eraseT r id).map Prod.fst := by
  induction r with
  | nil => simp [eraseT]
  | cons p tl ih =>
    obtain ⟨a, t⟩ := p
    by_cases ha : a = id
    · simpa [eraseT, ha] using ih
    · rw [eraseT, if_neg ha, List.map_cons]
      simp only [List.mem_cons]
      rintro (h | h)
      · exact ha h.symm
      · exact ih h

lemma keysNodup_setT (r : Registry) (id : String) (t : TransportObj)
    (h : KeysNodup r) : KeysNodup (setT r id t) := by
  unfold setT KeysNodup
  rw [List.map_cons]
  exact List.nodup_cons.mpr ⟨not_mem_keys_eraseT r id, keysNodup_eraseT r id h⟩

/-- C7: the transports registry keeps at most one live transport per session
identifier (registration preserves key uniqueness, so each id has at most one
binding), and running a transport's close handler removes that transport's
session-id binding, leaving no mapping for the closed channel. -/
theorem C7_registry_invariant (r : Registry) (id : String) (t u : TransportObj)
    (h : KeysNodup r) :
    KeysNodup (setT r id t) ∧
    (∀ s, ((setT r id t).map Prod.fst).count s ≤ 1) ∧
    KeysNodup (onCloseHandler r u) ∧
    (∀ sid, u.sessionId = some sid → lookupT (onCloseHandler r u) sid = none) := by
  refine ⟨keysNodup_setT r id t h, ?_, ?_, ?_⟩
  · exact fun s => List.nodup_iff_count_le_one.mp (keysNodup_setT r id t h) s
  · unfold onCloseHandler
    match u.sessionId with
    | some sid => exact keysNodup_eraseT r sid h
    | none => exact h
  · intro sid hs
    simp [onCloseHandler, hs, lookupT_eraseT]

def transportW : TransportObj := ⟨some "a", 7⟩

def registryW : Registry := [("a", transportW)]

theorem C7_registry_invariant_witness :
    KeysNodup (setT registryW "b" ⟨some "b", 1⟩) ∧
    lookupT (onCloseHandler registryW transportW) "a" = none :=
  ⟨(C7_registry_invariant registryW "b" ⟨some "b", 1⟩ transportW
      (show (registryW.map Prod.fst).Nodup by decide)).1,
    (C7_registry_invariant registryW "b" ⟨some "b", 1⟩ transportW
      (show (registryW.map Prod.fst).Nodup by decide)).2.2.2 "a" rfl⟩

/-- C6 (amended): for every inbound POST to /mcp: a nonempty session id with
a registry binding is routed to that binding's transport; no session id — or
an empty-string one, which JavaScript string truthiness treats as absent —
with a valid initialization request creates a fresh session and registers it;
a nonempty session id that is neither registered nor an inherited
Object.prototype property name, and a missing/empty session id without an
initialization request, are rejected with the protocol error code -32000 /
"Invalid session", the registry unchanged and no crash; but a nonempty
UNREGISTERED session id that names an inherited Object.prototype member
(e.g. "constructor", "toString", "__proto__") is truthy on the plain
transports object, so the reuse branch is taken with a non-transport value
and `transport.handleRequest` throws a TypeError — no -32000 rejection is
produced for those ids. -/
theorem C6_routing_amended (r : Registry) (sid : Option String) (isInit : Bool)
    (freshId : String) (freshHandle : Nat) :
    (∀ s t, sid = some s → s ≠ "" → lookupT r s = some t →
      handlePost r sid isInit freshId freshHandle = (.routed t, r)) ∧
    ((sid = none ∨ sid = some "") → isInit = true →
      handlePost r sid isInit freshId freshHandle =
        (.created freshId, setT r freshId ⟨some freshId, freshHandle⟩)) ∧
    (∀ s, sid = some s → s ≠ "" → lookupT r s = none → s ∉ protoProps →
      handlePost r sid isInit freshId freshHandle =
        (.rejected (-32000) "Invalid session", r)) ∧
    ((sid = none ∨ sid = some "") → isInit = false →
      handlePost r sid isInit freshId freshHandle =
        (.rejected (-32000) "Invalid session", r)) ∧
    (∀ s, sid = some s → s ≠ "" → lookupT r s = none → s ∈ protoProps →
      handlePost r sid isInit freshId freshHandle = (.crashed s, r)) := by
  refine ⟨?_, ?_, ?_, ?_, ?_⟩
  · intro s t hs hne hl
    subst hs
    simp [handlePost, objGet, hne, hl]
  · rintro (rfl | rfl) hinit <;> simp [handlePost, hinit]
  · intro s hs hne hl hnp
    subst hs
    simp [handlePost, objGet, hne, hl, hnp]
  · rintro (rfl | rfl) hinit <;> simp [handlePost, hinit]
  · intro s hs hne hl hp
    subst hs
    simp [handlePost, objGet, hne, hl, hp]

theorem C6_routing_amended_witness :
    handlePost registryW (some "a") false "f" 0 = (.routed transportW, registryW) ∧
    handlePost registryW none true "f" 0 =
      (.created "f", setT registryW "f" ⟨some "f", 0⟩) ∧
    handlePost registryW (some "zz") true "f" 0 =
      (.rejected (-32000) "Invalid session", registryW) ∧
    handlePost registryW none false "f" 0 =
      (.rejected (-32000) "Invalid session", registryW) ∧
    handlePost registryW (some "toString") true "f" 0 =
      (.crashed "toString", registryW) :=
  ⟨(C6_routing_amended registryW (some "a") false "f" 0).1 "a" transportW rfl
      (by decide) rfl,
    (C6_routing_amended registryW none true "f" 0).2.1 (Or.inl rfl) rfl,
    (C6_routing_amended registryW (some "zz") true "f" 0).2.2.1 "zz" rfl
      (by decide) rfl (by decide),
    (C6_routing_amended registryW none false "f" 0).2.2.2.1 (Or.inl rfl) rfl,
    (C6_routing_amended registryW (some "toString") true "f" 0).2.2.2.2
      "toString" rfl (by decide) rfl (by decide)⟩

/-- C6 counterexample, refuting the claim as stated at two concrete inputs
where it demands the -32000 "Invalid session" rejection.  First, a POST
carrying the header value "" — a session id absent from the registry — with
a valid initialization body is NOT rejected: JavaScript string truthiness
makes `sessionId && transports[sessionId]` false and `!sessionId` true, so
the source creates a fresh session.  Second, a POST carrying the
never-registered session id "constructor" is NOT rejected either: the
plain-object read `transports["constructor"]` hits the inherited, truthy
Object.prototype member, the reuse branch is taken with that non-transport
value, and `transport.handleRequest` throws a TypeError instead of producing
the protocol error — a crash, not the rejection the claim requires. -/
theorem C6_counterexample :
    lookupT ([] : Registry) "" = none ∧
    (handlePost [] (some "") true "fresh" 0).1 = PostOutcome.created "fresh" ∧
    (handlePost [] (some "") true "fresh" 0).1 ≠
      PostOutcome.rejected (-32000) "Invalid session" ∧
    lookupT ([] : Registry) "constructor" = none ∧
    (handlePost [] (some "constructor") false "fresh" 0).1 =
      PostOutcome.crashed "constructor" ∧
    (handlePost [] (some "constructor") false "fresh" 0).1 ≠
      PostOutcome.rejected (-32000) "Invalid session" :=
  ⟨rfl, rfl, fun h => PostOutcome.noConfusion h, rfl, rfl,
    fun h => PostOutcome.noConfusion h⟩

/-- C9: the optional `limit` parameter declared by list_templates is never
read by its handler (the source destructures only `apiKey`): any two
invocations differing only in `limit` issue the identical upstream request —
GET integration/templates with no limit anywhere in the request — and return
the identical result. -/
theorem C9_limit_has_no_effect (env : Nat → Except String HttpResponse)
    (apiKey : String) (l1 l2 : Option Nat) :
    list_templates env apiKey l1 = list_templates env apiKey l2 ∧
    (list_templates env apiKey l1).2 =
      [⟨apiKey, "integration/templates", .GET, none⟩] := by
  refine ⟨rfl, ?_⟩
  unfold list_templates
  cases hc : callApi (env 0) with
  | error m => rfl
  | ok p => rfl

/-- C10: supplying the empty string for html_to_pdf's pdfParams and metadata
raises no JSON validation error: "" is falsy in JavaScript, so the parse is
skipped and the invocation behaves exactly as if the parameters were absent —
the fields are omitted from the payload and the upstream call is still
issued (it is the first issued call, with both fields absent). -/
theorem C10_empty_string_treated_as_absent (parse : String → Option JVal)
    (env : Nat → Except String HttpResponse) (apiKey html : String)
    (cti hc : Option Bool) (w : Bool) :
    html_to_pdf parse env apiKey html (some "") cti (some "") hc w =
      html_to_pdf parse env apiKey html none cti none hc w ∧
    (html_to_pdf parse env apiKey html (some "") cti (some "") hc w).2.head? =
      some ⟨apiKey, "html-to-pdf/sync", .POST,
        some (.html ⟨html, none, none, cti, hc⟩)⟩ := by
  have hb : buildHtmlPayload parse html (some "") (some "") cti hc =
      .ok ⟨html, none, none, cti, hc⟩ := rfl
  constructor
  · rfl
  · unfold html_to_pdf
    rw [hb]
    cases hc2 : callApi (env 0) with
    | error m => rfl
    | ok p =>
      obtain ⟨s, result⟩ := p
      dsimp only
      split
      · rfl
      · split
        · split
          · rfl
          · split <;> rfl
        · rfl

def env200 : Nat → Except String HttpResponse := fun _ => .ok ⟨200, "", successBody⟩

/-- A concrete partial model of JSON.parse used by closed witnesses and
counterexamples: it accepts exactly the text "null" (JSON.parse of "null"
yields null) and reports a parse failure on everything else; in particular
`parse0 "" = none`, matching JSON.parse of "", which throws. -/
def parse0 : String → Option JVal :=
  fun s => if s = "null" then some JVal.null else none

/-- C4 counterexample: the empty string is a malformed JSON string
(JSON.parse of "" throws, so every faithful parse oracle returns none on
it), yet supplying it for html_to_pdf's pdfParams yields no error-flagged
result and the upstream call IS issued (one call, not zero): JavaScript
string truthiness makes `if (pdfParams)` skip the parse for "".  This
refutes the claim's "error-flagged result naming that parameter and zero
upstream calls" for this malformed input. -/
theorem C4_counterexample :
    parse0 "" = none ∧
    (html_to_pdf parse0 env200 "key" "<p>hi</p>" (some "") none none none
      true).1.isError = false ∧
    (html_to_pdf parse0 env200 "key" "<p>hi</p>" (some "") none none none
      true).2.length = 1 :=
  ⟨rfl, rfl, rfl⟩

/-- C4 (amended): a malformed NONEMPTY JSON string supplied for
html_to_pdf's pdfParams (with arbitrary metadata argument) or for its
metadata (with pdfParams absent), and a malformed string — empty included —
supplied for generate_pdf's required data, each produce an error-flagged
result whose text names that parameter, and zero upstream calls are issued;
an empty string supplied for the optional pdfParams/metadata is instead
treated as absent (JavaScript truthiness) and triggers no error (see the
counterexample). -/
theorem C4_invalid_json_amended (parse : String → Option JVal)
    (env : Nat → Except String HttpResponse) (apiKey html templateId s : String)
    (cti hc : Option Bool) (md : Option String) (w : Bool)
    (hs : s ≠ "") (hp : parse s = none) :
    html_to_pdf parse env apiKey html (some s) cti md hc w =
      (⟨"Error converting HTML to PDF: Invalid JSON provided for \x27pdfParams\x27 parameter",
        true⟩, []) ∧
    html_to_pdf parse env apiKey html none cti (some s) hc w =
      (⟨"Error converting HTML to PDF: Invalid JSON provided for \x27metadata\x27 parameter",
        true⟩, []) ∧
    (∀ u : String, parse u = none →
      generate_pdf parse env apiKey templateId u w =
        (⟨"Error generating PDF: Invalid JSON provided for \x27data\x27 parameter",
          true⟩, [])) := by
  refine ⟨?_, ?_, ?_⟩
  · unfold html_to_pdf buildHtmlPayload
    dsimp only [parseOptJsonParam]
    rw [if_neg hs, hp]
    rfl
  · unfold html_to_pdf buildHtmlPayload
    dsimp only [parseOptJsonParam]
    rw [if_neg hs, hp]
    rfl
  · intro u hu
    unfold generate_pdf
    rw [hu]

theorem C4_invalid_json_amended_witness :
    ("xx" : String) ≠ "" ∧ parse0 "xx" = none ∧ parse0 "" = none ∧
    html_to_pdf parse0 env200 "key" "<p>" (some "xx") none none none true =
      (⟨"Error converting HTML to PDF: Invalid JSON provided for \x27pdfParams\x27 parameter",
        true⟩, []) ∧
    html_to_pdf parse0 env200 "key" "<p>" none none (some "xx") none true =
      (⟨"Error converting HTML to PDF: Invalid JSON provided for \x27metadata\x27 parameter",
        true⟩, []) ∧
    generate_pdf parse0 env200 "key" "tpl" "" true =
      (⟨"Error generating PDF: Invalid JSON provided for \x27data\x27 parameter",
        true⟩, []) :=
  have h := C4_invalid_json_amended parse0 env200 "key" "<p>" "tpl" "xx"
    none none none true (by decide) rfl
  ⟨by decide, rfl, rfl, h.1, h.2.1, h.2.2 "" rfl⟩

/-- A structured tool result: either an unflagged success, or a flagged
(isError: true) result carrying nonempty human-readable text. -/
def StructuredResult (r : ToolResult) : Prop :=
  r.isError = false ∨ (r.isError = true ∧ r.text ≠ "")

lemma append_ne_empty_left (a b : String) (h : a ≠ "") : a ++ b ≠ "" := by
  intro hab
  apply h
  have hd := congrArg String.data hab
  rw [String.data_append] at hd
  exact String.ext ((List.append_eq_nil.mp hd).1)

lemma structured_list_templates (env : Nat → Except String HttpResponse)
    (apiKey : String) (limit : Option Nat) :
    StructuredResult (list_templates env apiKey limit).1 := by
  unfold list_templates
  cases hc : callApi (env 0) with
  | error m => exact Or.inr ⟨rfl, append_ne_empty_left _ m (by decide)⟩
  | ok p => exact Or.inl rfl

lemma structured_get_template_variables (env : Nat → Except String HttpResponse)
    (apiKey templateId : String) :
    StructuredResult (get_template_variables env apiKey templateId).1 := by
  unfold get_template_variables
  cases hc : callApi (env 0) with
  | error m => exact Or.inr ⟨rfl, append_ne_empty_left _ m (by decide)⟩
  | ok p => exact Or.inl rfl

lemma structured_check_pdf_status (env : Nat → Except String HttpResponse)
    (apiKey requestId : String) :
    StructuredResult (check_pdf_status env apiKey requestId).1 := by
  unfold check_pdf_status
  cases hc : callApi (env 0) with
  | error m => exact Or.inr ⟨rfl, append_ne_empty_left _ m (by decide)⟩
  | ok p =>
    obtain ⟨s, data⟩ := p
    dsimp only
    by_cases h1 : data.renderStatus = "SUCCESS"
    · rw [if_pos h1]
      exact Or.inl rfl
    · rw [if_neg h1]
      by_cases h2 : data.renderStatus = "ONGOING"
      · rw [if_pos h2]
        exact Or.inl rfl
      · rw [if_neg h2]
        exact Or.inr ⟨rfl, append_ne_empty_left _ requestId (by decide)⟩

lemma structured_html_to_pdf (parse : String → Option JVal)
    (env : Nat → Except String HttpResponse) (apiKey html : String)
    (pp md : Option String) (cti hc : Option Bool) (w : Bool) :
    StructuredResult (html_to_pdf parse env apiKey html pp cti md hc w).1 := by
  unfold html_to_pdf
  cases hb : buildHtmlPayload parse html pp md cti hc with
  | error m => exact Or.inr ⟨rfl, append_ne_empty_left _ m (by decide)⟩
  | ok payload =>
    cases hc2 : callApi (env 0) with
    | error m => exact Or.inr ⟨rfl, append_ne_empty_left _ m (by decide)⟩
    | ok p =>
      obtain ⟨s, result⟩ := p
      dsimp only
      by_cases h200 : s = 200
      · rw [if_pos h200]
        exact Or.inl rfl
      · rw [if_neg h200]
        by_cases h202 : s = 202
        · rw [if_pos h202]
          cases w with
          | false => exact Or.inl rfl
          | true =>
            cases hpr : (pollForPdfCompletion (fun i => env (i + 1)) apiKey
              result.requestId 20 2000).outcome with
            | ok fr => exact Or.inl rfl
            | error m => exact Or.inr ⟨rfl, append_ne_empty_left _ m (by decide)⟩
        · rw [if_neg h202]
          exact Or.inr ⟨rfl, append_ne_empty_left _ (toString s) (by decide)⟩

lemma structured_generate_pdf (parse : String → Option JVal)
    (env : Nat → Except String HttpResponse) (apiKey templateId data : String)
    (w : Bool) :
    StructuredResult (generate_pdf parse env apiKey templateId data w).1 := by
  unfold generate_pdf
  cases hd : parse data with
  | none =>
    exact Or.inr ⟨rfl,
      show ("Error generating PDF: Invalid JSON provided for \x27data\x27 parameter" : String) ≠ ""
        by decide⟩
  | some parsedData =>
    cases hc2 : callApi (env 0) with
    | error m => exact Or.inr ⟨rfl, append_ne_empty_left _ m (by decide)⟩
    | ok p =>
      obtain ⟨s, result⟩ := p
      dsimp only
      by_cases h200 : s = 200
      · rw [if_pos h200]
        exact Or.inl rfl
      · rw [if_neg h200]
        by_cases h202 : s = 202
        · rw [if_pos h202]
          cases w with
          | false => exact Or.inl rfl
          | true =>
            cases hpr : (pollForPdfCompletion (fun i => env (i + 1)) apiKey
              result.requestId 20 2000).outcome with
            | ok fr => exact Or.inl rfl
            | error m => exact Or.inr ⟨rfl, append_ne_empty_left _ m (by decide)⟩
        · rw [if_neg h202]
          exact Or.inr ⟨rfl, append_ne_empty_left _ (toString s) (by decide)⟩

lemma envError_list_templates (env : Nat → Except String HttpResponse)
    (apiKey : String) (limit : Option Nat) (e : String) (he : env 0 = .error e) :
    (list_templates env apiKey limit).1.isError = true := by
  unfold list_templates
  rw [he]
  rfl

lemma envError_get_template_variables (env : Nat → Except String HttpResponse)
    (apiKey templateId : String) (e : String) (he : env 0 = .error e) :
    (get_template_variables env apiKey templateId).1.isError = true := by
  unfold get_template_variables
  rw [he]
  rfl

lemma envError_check_pdf_status (env : Nat → Except String HttpResponse)
    (apiKey requestId : String) (e : String) (he : env 0 = .error e) :
    (check_pdf_status env apiKey requestId).1.isError = true := by
  unfold check_pdf_status
  rw [he]
  rfl

lemma envError_html_to_pdf (parse : String → Option JVal)
    (env : Nat → Except String HttpResponse) (apiKey html : String)
    (pp md : Option String) (cti hc : Option Bool) (w : Bool) (e : String)
    (he : env 0 = .error e) :
    (html_to_pdf parse env apiKey html pp cti md hc w).1.isError = true := by
  unfold html_to_pdf
  cases hb : buildHtmlPayload parse html pp md cti hc with
  | error m => rfl
  | ok payload =>
    rw [he]
    rfl

lemma envError_generate_pdf (parse : String → Option JVal)
    (env : Nat → Except String HttpResponse) (apiKey templateId data : String)
    (w : Bool) (e : String) (he : env 0 = .error e) :
    (generate_pdf parse env apiKey templateId data w).1.isError = true := by
  unfold generate_pdf
  cases hd : parse data with
  | none => rfl
  | some parsedData =>
    rw [he]
    rfl

/-- C5: for every invocation of any of the five tool handlers and every
upstream behavior — a thrown fetch error, a non-2xx status, a render
failure, a poll timeout, a JSON validation failure — the handler (a total
function into ToolResult in this model, mirroring the try/catch at the
dispatch boundary) returns a structured result: either an unflagged success
text or an isError-flagged nonempty human-readable text; moreover a thrown
error on the first upstream call always yields a flagged result. -/
theorem C5_errors_contained (parse : String → Option JVal)
    (env : Nat → Except String HttpResponse)
    (apiKey templateId requestId html data : String) (limit : Option Nat)
    (pp md : Option String) (cti hc : Option Bool) (w : Bool) :
    (StructuredResult (list_templates env apiKey limit).1 ∧
      StructuredResult (get_template_variables env apiKey templateId).1 ∧
      StructuredResult (check_pdf_status env apiKey requestId).1 ∧
      StructuredResult (html_to_pdf parse env apiKey html pp cti md hc w).1 ∧
      StructuredResult (generate_pdf parse env apiKey templateId data w).1) ∧
    (∀ e, env 0 = .error e →
      (list_templates env apiKey limit).1.isError = true ∧
      (get_template_variables env apiKey templateId).1.isError = true ∧
      (check_pdf_status env apiKey requestId).1.isError = true ∧
      (html_to_pdf parse env apiKey html pp cti md hc w).1.isError = true ∧
      (generate_pdf parse env apiKey templateId data w).1.isError = true) := by
  refine ⟨⟨structured_list_templates env apiKey limit,
    structured_get_template_variables env apiKey templateId,
    structured_check_pdf_status env apiKey requestId,
    structured_html_to_pdf parse env apiKey html pp md cti hc w,
    structured_generate_pdf parse env apiKey templateId data w⟩, ?_⟩
  intro e he
  exact ⟨envError_list_templates env apiKey limit e he,
    envError_get_template_variables env apiKey templateId e he,
    envError_check_pdf_status env apiKey requestId e he,
    envError_html_to_pdf parse env apiKey html pp md cti hc w e he,
    envError_generate_pdf parse env apiKey templateId data w e he⟩

def envErr : Nat → Except String HttpResponse := fun _ => .error "network down"

theorem C5_errors_contained_witness :
    StructuredResult (html_to_pdf parse0 envErr "key" "<p>" none none none none true).1 ∧
    (list_templates envErr "key" none).1.isError = true ∧
    (get_template_variables envErr "key" "tpl").1.isError = true ∧
    (check_pdf_status envErr "key" "r1").1.isError = true ∧
    (html_to_pdf parse0 envErr "key" "<p>" none none none none true).1.isError = true ∧
    (generate_pdf parse0 envErr "key" "tpl" "null" true).1.isError = true :=
  have h := C5_errors_contained parse0 envErr "key" "tpl" "r1" "<p>" "null"
    none none none none none true
  ⟨h.1.2.2.2.1, (h.2 "network down" rfl).1, (h.2 "network down" rfl).2.1,
    (h.2 "network down" rfl).2.2.1, (h.2 "network down" rfl).2.2.2.1,
    (h.2 "network down" rfl).2.2.2.2⟩

/-- C8: html_to_pdf invoked with waitForCompletion = false, when the upstream
answers the html-to-pdf/sync call with status 202, returns a non-error result
whose text visibly contains the returned requestId and the name of the
check_pdf_status tool (the trailing literal decomposes around it), and it
issues exactly the single html-to-pdf/sync call — no pdf/status query is ever
issued, i.e. pollForPdfCompletion is not invoked. -/
theorem C8_no_wait_returns_request_id (parse : String → Option JVal)
    (env : Nat → Except String HttpResponse) (apiKey html : String)
    (pp md : Option String) (cti hc : Option Bool) (p : HtmlPayload)
    (resp : HttpResponse)
    (hb : buildHtmlPayload parse html pp md cti hc = .ok p)
    (he : env 0 = .ok resp) (hs : resp.status = 202) :
    (html_to_pdf parse env apiKey html pp cti md hc false).1.isError = false ∧
    (html_to_pdf parse env apiKey html pp cti md hc false).1.text =
      "PDF generation queued (taking longer than 30 seconds).\nRequest ID: " ++
        resp.body.requestId ++
        "\nUse the check_pdf_status tool to monitor progress." ∧
    ("\nUse the check_pdf_status tool to monitor progress." : String) =
      "\nUse the " ++ "check_pdf_status" ++ " tool to monitor progress." ∧
    (html_to_pdf parse env apiKey html pp cti md hc false).2 =
      [⟨apiKey, "html-to-pdf/sync", .POST, some (.html p)⟩] := by
  have hc2 : callApi (env 0) = .ok (202, resp.body) := by
    rw [he]
    unfold callApi
    dsimp only
    rw [if_neg (by rw [hs]; decide), hs]
  unfold html_to_pdf
  rw [hb, hc2]
  dsimp only
  rw [if_neg (by decide : ¬ ((202 : Nat) = 200)), if_pos rfl]
  exact ⟨rfl, rfl, rfl, rfl⟩

def queuedBody : UpBody := ⟨"", "r1", "https://status", "queued", "", "", none⟩

def env202 : Nat → Except String HttpResponse := fun _ => .ok ⟨202, "", queuedBody⟩

theorem C8_no_wait_returns_request_id_witness :
    (html_to_pdf parse0 env202 "key" "<p>" none none none none false).1.isError = false ∧
    (html_to_pdf parse0 env202 "key" "<p>" none none none none false).1.text =
      "PDF generation queued (taking longer than 30 seconds).\nRequest ID: " ++
        (HttpResponse.mk 202 "" queuedBody).body.requestId ++
        "\nUse the check_pdf_status tool to monitor progress." ∧
    ("\nUse the check_pdf_status tool to monitor progress." : String) =
      "\nUse the " ++ "check_pdf_status" ++ " tool to monitor progress." ∧
    (html_to_pdf parse0 env202 "key" "<p>" none none none none false).2 =
      [⟨"key", "html-to-pdf/sync", .POST,
        some (.html ⟨"<p>", none, none, none, none⟩)⟩] :=
  C8_no_wait_returns_request_id parse0 env202 "key" "<p>" none none none none
    ⟨"<p>", none, none, none, none⟩ ⟨202, "", queuedBody⟩ rfl rfl rfl
